import Mathlib

/-!
Verification of the Eliza chatbot core (`eliza.py`): a shallow embedding of
the transformation-and-response pipeline (contraction normalizer,
pronoun/verb transformer, response simplifier, grammar mood adapter, and
the rule table dispatcher `get_response`), together with theorems that
settle the frozen claims about it.

The external collaborators (`nltk.word_tokenize`, `nltk.pos_tag`) are
modelled as parameters (`Ext`); the process-wide random choice
(`random.choice`) is modelled as an explicit choice function argument.
Python strings are modelled as Lean `String`s with the computations done
on the underlying `List Char`; `\w` and `\s` are modelled over ASCII.
-/

namespace Eliza

/-- A Python `\w` word character (ASCII model: letters, digits, underscore). -/
def isWordChar (c : Char) : Bool :=
  c.isAlpha || c.isDigit || c == '_'

/-- A Python `\s` whitespace character (ASCII model). -/
def isPySpace (c : Char) : Bool :=
  c == ' ' || c == '\t' || c == '\n' || c == '\r' || c == '\x0b' || c == '\x0c'

/-- Lowercasing of a string, Python `str.lower` (ASCII model). -/
def lowerStr (s : String) : String :=
  ⟨s.data.map Char.toLower⟩

/-- Attempted match of the regex `\b(\w+)\s{suf}\b` at the head of `s`
(`re` semantics: `\w+` must be the maximal word run, then exactly one
whitespace, then the literal suffix, then a word boundary).  The caller
guarantees the word boundary before `s`.  Returns the length of the
captured word run on success. -/
def sufMatch (suf s : List Char) : Option Nat :=
  let w := s.takeWhile isWordChar
  if w.isEmpty then none
  else
    match s.drop w.length with
    | [] => none
    | c :: rest =>
      if isPySpace c then
        if suf.isPrefixOf rest then
          match rest.drop suf.length with
          | [] => some w.length
          | d :: _ => if isWordChar d then none else some w.length
        else none
      else none

/-- Left-to-right non-overlapping scan of `re.sub(rf"\b(\w+)\s{suf}\b", rf"\1{suf}", s)`:
`prevW` records whether the previous character was a word character (for the
leading `\b`).  `fuel` bounds the recursion; `fuel = s.length` always
suffices since every step consumes at least one character. -/
def subScanF (suf : List Char) : Nat → Bool → List Char → List Char
  | 0, _, s => s
  | _ + 1, _, [] => []
  | fuel + 1, prevW, c :: cs =>
    if !prevW && isWordChar c then
      match sufMatch suf (c :: cs) with
      | some wlen =>
        ((c :: cs).take wlen ++ suf) ++
          subScanF suf fuel (isWordChar (suf.getLastD ' '))
            ((c :: cs).drop (wlen + 1 + suf.length))
      | none => c :: subScanF suf fuel (isWordChar c) cs
    else c :: subScanF suf fuel (isWordChar c) cs

/-- One pass `re.sub(rf"\b(\w+)\s{suf}\b", rf"\1{suf}", s)`. -/
def pySubOne (suf : String) (s : String) : String :=
  ⟨subScanF suf.data s.data.length false s.data⟩

/-- The fixed contraction suffix set, in the iteration (insertion) order of
the `contractions` dict of `handle_contractions`. -/
def contractionSuffixes : List String :=
  ["n't", "'ll", "'ve", "'re", "'d", "'m"]

/-- Function `handle_contractions` of `eliza.py`: for each suffix, reattach a
whitespace-separated contraction suffix to the preceding word. -/
def handle_contractions (input_string : String) : String :=
  contractionSuffixes.foldl (fun acc suf => pySubOne suf acc) input_string

/-- Helper for Python `str.split()` (no argument): split on runs of
whitespace, discarding empty pieces; `acc` holds the reversed current word. -/
def pySplitAux : List Char → List Char → List (List Char)
  | acc, [] => if acc.isEmpty then [] else [acc.reverse]
  | acc, c :: cs =>
    if isPySpace c then
      if acc.isEmpty then pySplitAux [] cs else acc.reverse :: pySplitAux [] cs
    else pySplitAux (c :: acc) cs

/-- Python `str.split()` with no argument. -/
def pySplit (s : String) : List String :=
  (pySplitAux [] s.data).map fun l => (⟨l⟩ : String)

/-- Python `" ".join(tokens)`. -/
def joinSp (ts : List String) : String :=
  ⟨List.intercalate [' '] (ts.map String.data)⟩

/-- Lookup in an association list by string key (Python `dict` access on the
literal dictionaries, whose keys are unique). -/
def alook {α : Type} : List (String × α) → String → Option α
  | [], _ => none
  | p :: ps, k => if p.1 = k then some p.2 else alook ps k

/-- The `pronoun_mapping` dict of `transform_pronouns`, in declaration order. -/
def pronounPairs : List (String × String) :=
  [("i", "you"), ("me", "you"), ("my", "your"), ("mine", "yours"),
   ("am", "are"), ("i'm", "you're"), ("i'd", "you'd"), ("i've", "you've"),
   ("i'll", "you'll"), ("you", "I"), ("your", "my"), ("yours", "mine"),
   ("you're", "I'm"), ("you'd", "I'd"), ("you've", "I've"), ("you'll", "I'll"),
   ("myself", "yourself"), ("yourself", "myself"), ("we", "you"), ("us", "you"),
   ("our", "your"), ("ours", "yours")]

/-- The `verb_mapping` dict of `transform_pronouns`: each verb key maps to a
subject-pronoun-indexed sub-mapping. -/
def verbPairs : List (String × List (String × String)) :=
  [("is", [("i", "am"), ("you", "are"), ("he", "is"), ("she", "is"),
           ("it", "is"), ("we", "are"), ("they", "are")]),
   ("was", [("i", "was"), ("you", "were"), ("he", "was"), ("she", "was"),
            ("it", "was"), ("we", "were"), ("they", "were")]),
   ("has", [("i", "have"), ("you", "have"), ("he", "has"), ("she", "has"),
            ("it", "has"), ("we", "have"), ("they", "have")]),
   ("wasn't", [("i", "wasn't"), ("you", "weren't"), ("he", "wasn't"),
               ("she", "wasn't"), ("it", "wasn't"), ("we", "weren't"),
               ("they", "weren't")]),
   ("isn't", [("i", "am not"), ("you", "aren't"), ("he", "isn't"),
              ("she", "isn't"), ("it", "isn't"), ("we", "aren't"),
              ("they", "aren't")]),
   ("hasn't", [("i", "haven't"), ("you", "haven't"), ("he", "hasn't"),
               ("she", "hasn't"), ("it", "hasn't"), ("we", "haven't"),
               ("they", "haven't")])]

/-- The body of one iteration of the token loop of `transform_pronouns`:
`prevO` is the previous original (already lowercased) token (`words[i-1]`,
`none` when `i = 0`), `prevT` the previously emitted token
(`transformed_words[-1]`, always present when `i > 0`). -/
def twStep (prevO prevT : Option String) (w : String) : String :=
  match alook pronounPairs w with
  | some v => v
  | none =>
    match prevO with
    | none => w
    | some po =>
      if (alook pronounPairs (lowerStr po)).isSome then
        match prevT with
        | none => w
        | some pt =>
          match alook verbPairs w with
          | some sub =>
            match alook sub (lowerStr pt) with
            | some v2 => v2
            | none => w
          | none => w
      else w

/-- The token loop of `transform_pronouns`: one element is emitted per input
token. -/
def twLoop : Option String → Option String → List String → List String
  | _, _, [] => []
  | prevO, prevT, w :: ws =>
    twStep prevO prevT w :: twLoop (some w) (some (twStep prevO prevT w)) ws

/-- Function `transform_pronouns` of `eliza.py`: lowercase, split on whitespace, map
pronouns and agreeing verb forms token by token, rejoin with single spaces,
then normalize contractions. -/
def transform_pronouns (input_string : String) : String :=
  handle_contractions (joinSp (twLoop none none (pySplit (lowerStr input_string))))

/-- The external collaborators of the core: the `nltk` sentence tokenizer
(`word_tokenize`) and part-of-speech tagger (`pos_tag`, modelled as the list
of tags of the given tokens, pairing positionally). -/
structure Ext where
  tok : String → List String
  tagL : List String → List String

/-- Evaluation of `pos_tag([word])[0][1]`: the tag of a single token (per-token tagging as
used by `simplify_response`). -/
def tag1 (ext : Ext) (w : String) : String :=
  match ext.tagL [w] with
  | [] => ""
  | g :: _ => g

/-- Python `a.startswith(pre)`. -/
def startsWithS (s pre : String) : Bool :=
  pre.data.isPrefixOf s.data

/-- The token-keeping loop of `simplify_response`: stop before the first
`. ! ? ,` token, stop after the first token whose single-token tag starts
with `NN`. -/
def keptTokens (ext : Ext) : List String → List String
  | [] => []
  | w :: ws =>
    if w ∈ ([".", "!", "?", ","] : List String) then []
    else if startsWithS (tag1 ext w) "NN" then [w]
    else w :: keptTokens ext ws

/-- Whitespace-run collapsing, `re.sub(r"\s+", " ", s)`; the flag records
whether the previous character was whitespace. -/
def collapseWsL : Bool → List Char → List Char
  | _, [] => []
  | inSp, c :: cs =>
    if isPySpace c then
      if inSp then collapseWsL true cs else ' ' :: collapseWsL true cs
    else c :: collapseWsL false cs

/-- Function `simplify_response` of `eliza.py`: tokenize, keep tokens up to the first
terminal punctuation (excluded) or first noun (included), rejoin, collapse
whitespace runs, and normalize contractions.  (The source line
`simplified_string is re.sub(r"\s'(\w+)", ...)` is a no-op comparison, not an
assignment, so no apostrophe-space fixing happens.) -/
def simplify_response (ext : Ext) (response : String) : String :=
  handle_contractions ⟨collapseWsL false (joinSp (keptTokens ext (ext.tok response))).data⟩

/-- The tag-directed prefix dispatch of `handle_grammar` (the if/elif chain
on `first_word_tag`). -/
def grammarDispatch (first_word_tag relevant_input : String) : String :=
  if first_word_tag ∈ (["JJ", "JJR", "JJS", "RB", "RBR", "RBS"] : List String) then
    "feeling " ++ relevant_input
  else if startsWithS first_word_tag "VB" then
    if first_word_tag = "VBG" then relevant_input
    else "being " ++ relevant_input
  else if startsWithS first_word_tag "NN" = true ∨
      first_word_tag ∈ (["PRP", "PRP$", "RP", "IN", "DT", "PDT", "WDT", "CD",
                         "LS", "SYM", "WDT", "WP", "WRB"] : List String) then
    if first_word_tag = "NN" then "being a " ++ relevant_input
    else "being " ++ relevant_input
  else if first_word_tag ∈ (["TO"] : List String) then
    "trying " ++ relevant_input
  else if first_word_tag ∈ (["CC", "EX", "FW", "UH", "POS"] : List String) then
    "whatever " ++ relevant_input ++ " means"
  else relevant_input

/-- The tag of the head of `tagged[2:]`, or `""` when nothing remains. -/
def headTagStr : List (String × String) → String
  | [] => ""
  | p :: _ => p.2

/-- Function `handle_grammar` of `eliza.py`: when the tagged token sequence starts
with "i" followed by "am"/"'m" (case-insensitive) and has at least two
entries, dispatch on the part-of-speech of the first remaining token;
otherwise return the input unchanged. -/
def handle_grammar (ext : Ext) (input_string : String) : String :=
  let tokens := ext.tok input_string
  let tagged := tokens.zip (ext.tagL tokens)
  match tagged with
  | (a0, _) :: (a1, _) :: rtag =>
    if lowerStr a0 = "i" ∧ (lowerStr a1 = "am" ∨ lowerStr a1 = "'m") then
      grammarDispatch (headTagStr rtag) (joinSp (tokens.drop 2))
    else input_string
  | _ => input_string

/-- A concrete instantiation of the external collaborators used by witness
theorems: whitespace tokenization and a trivial keyword tagger. -/
def wTag (w : String) : String :=
  if w = "candy" ∨ w = "store" ∨ w = "spiders" ∨ w = "problem" then "NN"
  else if w = "tired" ∨ w = "happy" then "JJ"
  else if w = "running" then "VBG"
  else "XX"

/-- Witness collaborator bundle: `pySplit` tokenizer with `wTag` tagging. -/
def wExt : Ext := ⟨pySplit, fun ts => ts.map wTag⟩

/-- An item of the regex subset used by the rule table: a literal character
or the capturing wildcard `(.*)`. -/
inductive RItem : Type where
  | lit : Char → RItem
  | star : RItem

/-- Parse a rule-table pattern string into the regex subset: `(.*)` becomes
`star`, a backslash escape becomes the escaped literal character, anything
else is a literal character.  (The table's patterns use no other regex
syntax.) -/
def parsePat : List Char → List RItem
  | '(' :: '.' :: '*' :: ')' :: rest => .star :: parsePat rest
  | '\\' :: c :: rest => .lit c :: parsePat rest
  | c :: rest => .lit c :: parsePat rest
  | [] => []

/-- Case-insensitive character comparison (`re.IGNORECASE`, ASCII model). -/
def ciEq (a b : Char) : Bool :=
  a.toLower == b.toLower

/-- Success of `re.match(pattern, s, re.IGNORECASE)`: anchored at the start of
`s`, free at the end; `(.*)` matches any run of non-newline characters. -/
def reMatch : List RItem → List Char → Bool
  | [], _ => true
  | .lit _ :: _, [] => false
  | .lit l :: rest, c :: cs => ciEq l c && reMatch rest cs
  | .star :: rest, s =>
    (List.range (s.length + 1)).any fun k =>
      (s.take k).all (fun c => !(c == '\n')) && reMatch rest (s.drop k)

/-- Extraction `match.group(1)` of a successful `re.match`: the greedy capture of the
first `(.*)` (the largest extent whose residue still matches), `none` when
the pattern has no capturing group or does not match. -/
def group1 : List RItem → List Char → Option (List Char)
  | [], _ => none
  | .lit _ :: _, [] => none
  | .lit l :: rest, c :: cs => if ciEq l c then group1 rest cs else none
  | .star :: rest, s =>
    match (List.range (s.length + 1)).reverse.find? (fun k =>
        (s.take k).all (fun c => !(c == '\n')) && reMatch rest (s.drop k)) with
    | some k => some (s.take k)
    | none => none

/-- Whether a parsed pattern contains a capturing group. -/
def hasStar : List RItem → Bool
  | [] => false
  | .star :: _ => true
  | .lit _ :: rest => hasStar rest

/-- Python `template.format(arg)` for the templates of the rule table: every
`{0}` placeholder is replaced by `arg`. -/
def fmtL (arg : List Char) : List Char → List Char
  | '\x7b' :: '0' :: '\x7d' :: rest => arg ++ fmtL arg rest
  | c :: rest => c :: fmtL arg rest
  | [] => []

/-- Python `template.format(arg)` on strings. -/
def pyFormat (tmpl arg : String) : String :=
  ⟨fmtL arg.data tmpl.data⟩

/-- The `responses` dict literal of `get_response`, as written in the source:
an ordered sequence of (pattern, templates) entries, in declaration order,
including the duplicated `"I want (.*)"` key. -/
def rawResponses : List (String × List String) :=
  [("I'm afraid of (.*)",
    ["Why are you afraid of {0}?",
     "What about {0} scares you?",
     "How do you usually cope with this fear?"]),
   ("I'm worried about (.*)",
    ["Why are you worried about {0}?",
     "What do you think might happen with {0}?",
     "How do you usually deal with worries like this?"]),
   ("I remember (.*)",
    ["What does {0} make you think of?",
     "How does that memory make you feel?",
     "Why is {0} significant to you?"]),
   ("I feel like (.*)",
    ["Why do you feel like {0}?",
     "What makes you feel like {0}?",
     "How does it affect you to feel like {0}?"]),
   ("I wish I could (.*)",
    ["What stops you from {0}?",
     "How do you think you could start {0}?",
     "What would change for you if you could {0}?"]),
   ("People (.*)",
    ["Why do you think people {0}?",
     "What kind of people {0}?",
     "How do you feel about people {0}?"]),
   ("My job (.*)",
    ["Tell me more about your job.",
     "What do you like or dislike about your job?",
     "How does your job make you feel?"]),
   ("My friends (.*)",
    ["Tell me more about your friends.",
     "What do you enjoy about your friends?",
     "How do your friends affect your life?"]),
   ("I don't understand (.*)",
    ["Why do you think you don't understand {0}?",
     "What could help you understand {0} better?",
     "How does not understanding {0} make you feel?"]),
   ("I feel overwhelmed (.*)",
    ["What is overwhelming you?",
     "How do you usually cope with feeling overwhelmed?",
     "What can you do to reduce this feeling?"]),
   ("I feel stuck (.*)",
    ["Why do you feel stuck {0}?",
     "What can you do to move forward?",
     "How long have you felt stuck?"]),
   ("My childhood (.*)",
    ["Tell me more about your childhood.",
     "What are your most vivid childhood memories?",
     "How do you feel about your childhood?"]),
   ("I don't like (.*)",
    ["Why don't you like {0}?",
     "What about {0} bothers you?",
     "How do you usually deal with things you don't like?"]),
   ("I hate (.*)",
    ["Why do you hate {0}?",
     "What about {0} makes you feel this way?",
     "How do you usually express this feeling?"]),
   ("I enjoy (.*)",
    ["What do you enjoy about {0}?",
     "How often do you engage in {0}?",
     "How does {0} make you feel?"]),
   ("I prefer (.*)",
    ["Why do you prefer {0}?",
     "What makes {0} better for you?",
     "How does preferring {0} affect your choices?"]),
   ("I dislike (.*)",
    ["Why do you dislike {0}?",
     "What about {0} makes you feel this way?",
     "How do you usually handle things you dislike?"]),
   ("I'm unsure about (.*)",
    ["Why are you unsure about {0}?",
     "What would help you feel more certain about {0}?",
     "How does being unsure about {0} affect you?"]),
   ("(.*)\\?",
    ["Why do you ask that?",
     "What do you think?",
     "How would an answer to that help you?"]),
   ("(.*) problem(.*)",
    ["Tell me more about that problem.",
     "How do you usually deal with problems like that?",
     "What do you think is causing this problem?"]),
   ("(.*) happy(.*)",
    ["What makes you feel happy?",
     "Tell me more about what's making you happy.",
     "How long have you felt this way?"]),
   ("(.*) sad(.*)",
    ["Why do you feel sad?",
     "What usually helps you feel better when you're sad?",
     "How long have you been feeling this way?"]),
   ("(.*) angry(.*)",
    ["What makes you feel angry?",
     "How do you usually express your anger?",
     "What do you think can help you calm down?"]),
   ("(.*) worried(.*)",
    ["Why do you feel worried?",
     "What do you think is the cause of your worry?",
     "How do you usually cope with worry?"]),
   ("(.*) excited(.*)",
    ["What are you excited about?",
     "How long have you been feeling this way?",
     "What usually makes you excited?"]),
   ("(.*) confused(.*)",
    ["What is confusing you?",
     "How do you usually deal with confusion?",
     "What do you think could help you understand better?"]),
   ("(.*) love(.*)",
    ["Tell me more about this feeling of love.",
     "Who do you feel this way about?",
     "How long have you felt this way?"]),
   ("(.*) afraid(.*)",
    ["Why do you feel afraid?",
     "What do you think is causing this fear?",
     "How do you usually deal with fear?"]),
   ("(.*) dreams(.*)",
    ["What kind of dreams have you been having?",
     "Do you remember any specific dreams?",
     "How do these dreams make you feel?"]),
   ("(.*) past(.*)",
    ["Do you often think about the past?",
     "What specifically from the past are you thinking about?",
     "How does thinking about the past make you feel?"]),
   ("(.*) future(.*)",
    ["What are your thoughts about the future?",
     "Does thinking about the future make you anxious?",
     "What are you looking forward to?"]),
   ("(.*) work(.*)",
    ["Tell me more about your work.",
     "Do you enjoy your work?",
     "What do you find most challenging about your work?"]),
   ("(.*) family(.*)",
    ["Tell me more about your family.",
     "How do you feel about your family?",
     "What is your relationship with your family like?"]),
   ("(.*) relationships(.*)",
    ["How do you feel about your relationships?",
     "What is the most important thing to you in a relationship?",
     "Have you had any significant relationships recently?"]),
   ("(.*) school(.*)",
    ["Tell me more about your school experience.",
     "Do you enjoy school?",
     "What do you find most challenging about school?"]),
   ("(.*) health(.*)",
    ["How is your health?",
     "Are you concerned about any health issues?",
     "What do you do to maintain your health?"]),
   ("(.*) hobbies(.*)",
    ["What hobbies do you enjoy?",
     "How often do you engage in your hobbies?",
     "How do your hobbies make you feel?"]),
   ("(.*) travel(.*)",
    ["Do you like to travel?",
     "Tell me about a recent trip you've taken.",
     "What places would you like to visit?"]),
   ("(.*) stress(.*)",
    ["What is causing you stress?",
     "How do you usually handle stress?",
     "What can you do to reduce your stress?"]),
   ("(.*) goals(.*)",
    ["What are your current goals?",
     "How do you plan to achieve your goals?",
     "What motivates you to pursue your goals?"]),
   ("(.*) changes(.*)",
    ["What changes are you experiencing?",
     "How do you feel about these changes?",
     "What can you do to adapt to these changes?"]),
   ("I want (.*)",
    ["Why do you want {0}?",
     "How would it feel if you got {0}?",
     "What would you do if you got {0}?",
     "I see. And what does that tell you?"]),
   ("I need (.*)",
    ["Why do you need {0}?",
     "Would it really help you to get {0}?",
     "Are you sure you need {0}?"]),
   ("Why don't you (.*)",
    ["Do you really think I don't {0}?",
     "Perhaps eventually I will {0}.",
     "Do you really want me to {0}?"]),
   ("Why can't I (.*)",
    ["Do you think you should be able to {0}?",
     "If you could {0}, what would you do?",
     "I don't know -- why can't you {0}?"]),
   ("I can't (.*)",
    ["How do you know you can't {0}?",
     "Perhaps you could {0} if you tried.",
     "What would it take for you to {0}?"]),
   ("I am (.*)",
    ["How long have you been {0}?",
     "How do you feel about {0}?",
     "Do you enjoy {0}?"]),
   ("I'm (.*)",
    ["How does {0} make you feel?",
     "Do you enjoy {0}?",
     "Why do you tell me you're {0}?"]),
   ("Are you (.*)",
    ["Why does it matter whether I am {0}?",
     "Would you prefer if I were not {0}?",
     "Perhaps you believe I am {0}."]),
   ("What (.*)",
    ["Why do you ask?",
     "How would an answer to that help you?",
     "What do you think?"]),
   ("How (.*)",
    ["How do you suppose?",
     "Perhaps you can answer your own question.",
     "What is it you're really asking?"]),
   ("Because (.*)",
    ["Is that the real reason?",
     "What other reasons come to mind?",
     "Does that reason apply to anything else?",
     "If {0}, what else must be true?"]),
   ("(.*) sorry (.*)",
    ["There are many times when no apology is needed.",
     "What feelings do you have when you apologize?"]),
   ("Hello(.*)",
    ["Hello, I'm glad you could drop by today.",
     "Hi there, how are you today?",
     "Hello, how are you feeling today?"]),
   ("I think (.*)",
    ["Do you doubt {0}?",
     "Do you really think so?",
     "But you're not sure {0}?"]),
   ("(.*) friend (.*)",
    ["Tell me more about your friends.",
     "When you think of a friend, what comes to mind?",
     "Why don't you tell me about a childhood friend?",
     "How do you feel when you say that?"]),
   ("Yes (.*)",
    ["You seem quite sure.",
     "OK, but can you elaborate a bit?"]),
   ("(.*) computer(.*)",
    ["Are you really talking about me?",
     "Does it seem strange to talk to a computer?",
     "How do computers make you feel?",
     "Do you feel threatened by computers?"]),
   ("Is it (.*)",
    ["Do you think it is {0}?",
     "Perhaps it's {0} -- what do you think?",
     "If it were {0}, what would you do?"]),
   ("It is (.*)",
    ["You seem very certain.",
     "If I told you that it probably isn't {0}, what would you feel?"]),
   ("Can you (.*)",
    ["What makes you think I can't {0}?",
     "If I could {0}, then what?",
     "Why do you ask if I can {0}?"]),
   ("Can I (.*)",
    ["Perhaps you don't want to {0}.",
     "Do you want to be able to {0}?",
     "If you could {0}, would you?"]),
   ("You are (.*)",
    ["Why do you think I am {0}?",
     "Does it please you to think that I'm {0}?",
     "Perhaps you would like me to be {0}?"]),
   ("You're (.*)",
    ["Why do you say I am {0}?",
     "Why do you think I am {0}?",
     "Are we talking about you, or me?",
     "How does that make you feel?"]),
   ("(.*) me (.*)",
    ["Why do you say that {0} you?",
     "Why do you think that {0} you?",
     "What do you mean by {0} you?"]),
   ("Why (.*)",
    ["What would you do if you had the answer to that question?",
     "I don't have all the answers, yet I wish I knew everything. Why {0}?",
     "I don't know, {0}?"]),
   ("I want (.*)",
    ["What would it mean if you got {0}?",
     "Why do you want {0}?",
     "What would you do if you got {0}?"]),
   ("(.*) mother(.*)",
    ["Tell me more about your mother.",
     "What was your relationship with your mother like?",
     "How do you feel about your mother?"]),
   ("(.*) father(.*)",
    ["Tell me more about your father.",
     "How did your father make you feel?",
     "How do you feel about your father?"]),
   ("(.*) child(.*)",
    ["Did you have close friends as a child?",
     "What is your favorite childhood memory?",
     "Please tell me more.",
     "Can you elaborate on that?",
     "Do you remember any dreams or nightmares from childhood?"]),
   ("I feel (.*)",
    ["Why do you feel {0}?",
     "What makes you feel {0}?",
     "How long have you felt {0}?"]),
   ("It seems (.*)",
    ["Why does it seem {0}?",
     "What makes it seem {0}?",
     "How does it affect you that it seems {0}?"]),
   ("Sometimes (.*)",
    ["Can you tell me more about those times?",
     "Why sometimes and not always?",
     "What happens when {0}?"]),
   ("If only (.*)",
    ["What do you think would change if {0}?",
     "Why do you say 'if only {0}'?",
     "What stops you from making {0} happen?"]),
   ("I regret (.*)",
    ["Why do you regret {0}?",
     "What could you do differently now?",
     "How does regretting {0} affect you?"]),
   ("I hope (.*)",
    ["Why do you hope {0}?",
     "What makes you hope {0}?",
     "How would you feel if {0}?"]),
   ("I wish (.*)",
    ["Why do you wish {0}?",
     "What makes you wish {0}?",
     "What would you do if {0}?"]),
   ("I miss (.*)",
    ["Why do you miss {0}?",
     "What do you miss most about {0}?",
     "How often do you think about {0}?"]),
   ("default",
    ["Why do you say {0}?",
     "{0}?"])]

/-- Insertion of one key/value pair with Python `dict` literal semantics: a
repeated key keeps its first position but takes the later value. -/
def dictInsert (k : String) (v : List String) :
    List (String × List String) → List (String × List String)
  | [] => [(k, v)]
  | (k0, v0) :: rest =>
    if k0 = k then (k0, v) :: rest else (k0, v0) :: dictInsert k v rest

/-- Build the insertion-ordered `dict` from the literal entry sequence. -/
def buildDict (entries : List (String × List String)) :
    List (String × List String) :=
  entries.foldl (fun d e => dictInsert e.1 e.2 d) []

/-- The `responses` dict of `get_response`, in iteration order. -/
def responses : List (String × List String) :=
  buildDict rawResponses

/-- The pattern test of the dispatcher loop: does the rule's pattern match
the utterance (`re.match(pattern, user_input, re.IGNORECASE)`)? -/
def matchesEntry (user_input : String) (e : String × List String) : Bool :=
  reMatch (parsePat e.1.data) user_input.data

/-- Case-insensitive prefix test (used for `re.match(r"^I am|^I'm", ...)`,
whose alternation of two anchored literals is a prefix test). -/
def ciPrefixB : List Char → List Char → Bool
  | [], _ => true
  | _ :: _, [] => false
  | l :: ls, c :: cs => ciEq l c && ciPrefixB ls cs

/-- The fixed apology returned when `match.group(1)` raises `IndexError`. -/
def apology : String := "I'm not sure I understand. Can you elaborate?"

/-- The `responses["default"]` template list used by the fallback path. -/
def defaultTemplates : List String :=
  (alook responses "default").getD []

set_option linter.unusedVariables false

/-- Function `get_response` of `eliza.py`.  Argument `pick` models `random.choice`; `ext` the
nltk collaborators.  The first rule (in dict iteration order) whose pattern
matches wins; its captured fragment is pronoun-swapped, grammar-adapted for
the two first-person rules, contraction-normalized, simplified, and spliced
into the chosen template; a missing capture group (`IndexError`) yields the
fixed apology; when no rule matches, the whole utterance goes through the
fallback pipeline into a chosen `default` template.  `user_name` is accepted
and unused, as in the source. -/
def get_response (ext : Ext) (pick : List String → String)
    (user_input user_name : String) : String :=
  match responses.find? (matchesEntry user_input) with
  | some (pattern, resps) =>
    let resp := pick resps
    match group1 (parsePat pattern.data) user_input.data with
    | none => apology
    | some g =>
      let transformed_input := transform_pronouns ⟨g⟩
      let transformed_input :=
        if pattern = "I am (.*)" ∨ pattern = "I'm (.*)" then
          handle_grammar ext ("I am " ++ transformed_input)
        else transformed_input
      let transformed_input := handle_contractions transformed_input
      pyFormat resp (simplify_response ext transformed_input)
  | none =>
    let transformed_default := transform_pronouns user_input
    let transformed_default :=
      if ciPrefixB "I am".data user_input.data || ciPrefixB "I'm".data user_input.data then
        handle_grammar ext transformed_default
      else transformed_default
    let transformed_default := handle_contractions transformed_default
    pyFormat (pick defaultTemplates) (simplify_response ext transformed_default)

/-- Witness choice function: always the first template (a particular
resolution of `random.choice`). -/
def wPick (l : List String) : String := l.headD ""

/-- Case-insensitive substring test (specification helper for stating the
"contains a clause" parts of the claims). -/
def subListB : List Char → List Char → Bool
  | needle, [] => needle.isEmpty
  | needle, c :: cs => needle.isPrefixOf (c :: cs) || subListB needle cs

/-- Case-insensitive "contains" on strings (specification helper). -/
def containsCI (needle hay : String) : Bool :=
  subListB (lowerStr needle).data (lowerStr hay).data

/-- Placeholder presence in a template (`str.format` substitution). -/
def hasPlaceholder (t : String) : Bool :=
  subListB "\x7b0\x7d".data t.data

/-- The template list of the second `"I want (.*)"` declaration. -/
def iWantSecond : List String :=
  ["What would it mean if you got {0}?", "Why do you want {0}?",
   "What would you do if you got {0}?"]

/-- A token containing a character that is neither a letter nor an
apostrophe (e.g. attached punctuation); no key of the pronoun or verb
mapping is such a token. -/
def badTok (w : String) : Bool :=
  w.data.any fun c => !(c.isAlpha || c == '\'')

lemma alook_eq_none_of_badTok {α : Type} (l : List (String × α))
    (hk : ∀ p ∈ l, p.1.data.all (fun c => c.isAlpha || c == '\'') = true)
    (w : String) (hw : badTok w = true) : alook l w = none := by
  induction l with
  | nil => rfl
  | cons p ps ih =>
    have hp := hk p (List.mem_cons_self p ps)
    by_cases he : p.1 = w
    · exfalso
      rw [← he] at hw
      rcases List.any_eq_true.mp hw with ⟨c, hc, hbad⟩
      have hgood := List.all_eq_true.mp hp c hc
      rw [hgood] at hbad
      exact Bool.noConfusion hbad
    · simpa [alook, he] using ih fun q hq => hk q (List.mem_cons_of_mem _ hq)

lemma pronounKeys_good :
    ∀ p ∈ pronounPairs, p.1.data.all (fun c => c.isAlpha || c == '\'') = true := by
  decide

lemma verbKeys_good :
    ∀ p ∈ verbPairs, p.1.data.all (fun c => c.isAlpha || c == '\'') = true := by
  decide

lemma twLoop_length (prevO prevT : Option String) (ws : List String) :
    (twLoop prevO prevT ws).length = ws.length := by
  induction ws generalizing prevO prevT with
  | nil => rfl
  | cons w wsr ih => simp [twLoop, ih]

lemma twStep_eq_of_badTok (prevO prevT : Option String) (w : String)
    (hbad : badTok w = true) : twStep prevO prevT w = w := by
  have h1 : alook pronounPairs w = none :=
    alook_eq_none_of_badTok _ pronounKeys_good w hbad
  have h2 : alook verbPairs w = none :=
    alook_eq_none_of_badTok _ verbKeys_good w hbad
  rcases prevO with _ | po <;> rcases prevT with _ | pt <;>
    simp [twStep, h1, h2]

lemma twLoop_forall2 (prevO prevT : Option String) (ws : List String) :
    List.Forall₂ (fun w out => badTok w = true → out = w) ws
      (twLoop prevO prevT ws) := by
  induction ws generalizing prevO prevT with
  | nil => exact List.Forall₂.nil
  | cons w wsr ih =>
    rw [twLoop]
    exact List.Forall₂.cons (fun hbad => twStep_eq_of_badTok _ _ _ hbad) (ih _ _)

/-- C10: the response is independent of the user's name: with the same
collaborators and the same random-choice resolution, `get_response` yields
the same output for any two `user_name` values — the parameter is never
consulted. -/
theorem c10_user_name_noninterference :
    ∀ (ext : Ext) (pick : List String → String) (input n1 n2 : String),
      get_response ext pick input n1 = get_response ext pick input n2 :=
  fun _ _ _ _ _ => rfl

/-- C3 counterexample: the round trip on the core pair fails.  Transforming
"I am happy" does yield "you are happy", but transforming that result yields
"I are happy", which does not contain "I am happy" (case-insensitively) —
the claimed approximate inverse property is false on the stated input. -/
theorem c3_pronoun_roundtrip_cex :
    transform_pronouns "I am happy" = "you are happy" ∧
    containsCI "you are happy" (transform_pronouns "I am happy") = true ∧
    transform_pronouns (transform_pronouns "I am happy") = "I are happy" ∧
    containsCI "I am happy"
      (transform_pronouns (transform_pronouns "I am happy")) = false := by
  decide

/-- C3 amended: transforming "I am happy" yields "you are happy"; applying
the transformer to that result yields "I are happy" — the pronoun swaps
back, but "are" is not a key of the verb-agreement map, so the verb is not
restored to "am" and the round trip is not completed. -/
theorem c3_pronoun_roundtrip_amended :
    transform_pronouns "I am happy" = "you are happy" ∧
    transform_pronouns "you are happy" = "I are happy" ∧
    alook pronounPairs "are" = none ∧
    alook verbPairs "are" = none := by
  decide

/-- C2 counterexample: the Contraction Normalizer is not idempotent.  On
"x n't n't" one application yields "xn't n't"; the second application then
merges across the previously attached contraction, yielding "xn'tn't". -/
theorem c2_contraction_idempotence_cex :
    handle_contractions (handle_contractions "x n't n't") ≠
      handle_contractions "x n't n't" := by
  decide

lemma mem_of_sufMatch {suf s : List Char} {n : Nat}
    (h : sufMatch suf s = some n) {c : Char} (hc : c ∈ suf) : c ∈ s := by
  unfold sufMatch at h
  by_cases hw : (s.takeWhile isWordChar).isEmpty
  · simp [hw] at h
  · simp only [hw, if_false, Bool.false_eq_true] at h
    rcases hd : s.drop (s.takeWhile isWordChar).length with _ | ⟨c0, rest⟩
    · rw [hd] at h; exact Option.noConfusion h
    · rw [hd] at h
      by_cases hsp : isPySpace c0 = true
      · simp only [hsp, if_true] at h
        by_cases hpre : suf.isPrefixOf rest
        · have h1 : c ∈ rest :=
            (List.isPrefixOf_iff_prefix.mp hpre).subset hc
          have h2 : c ∈ s.drop (s.takeWhile isWordChar).length := by
            rw [hd]; exact List.mem_cons_of_mem _ h1
          exact List.drop_subset _ _ h2
        · simp [hpre] at h
      · simp [hsp] at h

lemma subScanF_id_of_no_apos (suf : List Char) (ha : '\'' ∈ suf) :
    ∀ (fuel : Nat) (prevW : Bool) (s : List Char), '\'' ∉ s →
      subScanF suf fuel prevW s = s := by
  intro fuel
  induction fuel with
  | zero => intro _ _ _; rfl
  | succ n ih =>
    intro prevW s hs
    match s with
    | [] => rfl
    | c :: cs =>
      have hcs : '\'' ∉ cs := fun h => hs (List.mem_cons_of_mem _ h)
      rcases hm : sufMatch suf (c :: cs) with _ | wlen
      · by_cases hb : (!prevW && isWordChar c) = true
        · simp [subScanF, hb, hm, ih _ cs hcs]
        · simp [subScanF, hb, ih _ cs hcs]
      · exact absurd (mem_of_sufMatch hm ha) hs

lemma pySubOne_id_of_no_apos (suf : String) (ha : '\'' ∈ suf.data)
    (s : String) (hs : '\'' ∉ s.data) : pySubOne suf s = s := by
  unfold pySubOne
  rw [subScanF_id_of_no_apos suf.data ha s.data.length false s.data hs]

lemma handle_contractions_id_of_no_apos (s : String) (hs : '\'' ∉ s.data) :
    handle_contractions s = s := by
  have hstep : handle_contractions s =
      pySubOne "'m" (pySubOne "'d" (pySubOne "'re" (pySubOne "'ve"
        (pySubOne "'ll" (pySubOne "n't" s))))) := rfl
  rw [hstep, pySubOne_id_of_no_apos "n't" (by decide) s hs,
    pySubOne_id_of_no_apos "'ll" (by decide) s hs,
    pySubOne_id_of_no_apos "'ve" (by decide) s hs,
    pySubOne_id_of_no_apos "'re" (by decide) s hs,
    pySubOne_id_of_no_apos "'d" (by decide) s hs,
    pySubOne_id_of_no_apos "'m" (by decide) s hs]

/-- C2 amended: the Contraction Normalizer is not idempotent in general (a
second application can merge a spaced suffix across a previously attached
contraction); it is idempotent on every input containing no apostrophe,
since every contraction suffix contains one and such inputs are left
unchanged. -/
theorem c2_contraction_idempotence_amended :
    ∀ s : String, '\'' ∉ s.data →
      handle_contractions (handle_contractions s) = handle_contractions s := by
  intro s hs
  simp [handle_contractions_id_of_no_apos s hs]

/-- C2 witness: the amended idempotence at the concrete apostrophe-free
input "hello world". -/
theorem c2_contraction_idempotence_witness :
    handle_contractions (handle_contractions "hello world") =
      handle_contractions "hello world" :=
  c2_contraction_idempotence_amended "hello world" (by decide)

/-- C4 counterexample: the Pronoun/Verb Transformer does not preserve the
whitespace token count.  The input "you isn't" has two tokens, but its image
"I am not" (via `verb_mapping["isn't"]["i"] = "am not"`) has three. -/
theorem c4_token_count_cex :
    ¬ ((pySplit (transform_pronouns "you isn't")).length =
        (pySplit "you isn't").length) := by
  decide

/-- C4 amended: the transformer's token loop emits exactly one (possibly
multi-word) element per input token, and any token containing a character
other than a letter or an apostrophe — in particular a word with attached
punctuation — is emitted unchanged, since no mapping key contains such a
character.  The whitespace token count of the final output may nevertheless
differ from the input's: the emitted element can itself contain a space
("isn't" after a swapped first-person subject becomes "am not"), and the
final contraction normalization can merge spaced suffixes. -/
theorem c4_token_count_amended :
    (∀ (prevO prevT : Option String) (ws : List String),
      (twLoop prevO prevT ws).length = ws.length) ∧
    (∀ (prevO prevT : Option String) (ws : List String),
      List.Forall₂ (fun w out => badTok w = true → out = w) ws
        (twLoop prevO prevT ws)) ∧
    (∀ s : String, transform_pronouns s =
      handle_contractions (joinSp (twLoop none none (pySplit (lowerStr s))))) ∧
    transform_pronouns "you isn't" = "I am not" ∧
    (pySplit (transform_pronouns "you isn't")).length = 3 ∧
    (pySplit "you isn't").length = 2 :=
  ⟨twLoop_length, twLoop_forall2, fun _ => rfl, by decide, by decide, by decide⟩

/-- C4 witness: the amended statement applied at the concrete token list
["saw", "him!"]: one element is emitted per token, and the
punctuation-carrying token passes through unchanged. -/
theorem c4_token_count_witness :
    (twLoop none none ["saw", "him!"]).length = 2 ∧
    twLoop none none ["saw", "him!"] = ["saw", "him!"] :=
  ⟨c4_token_count_amended.1 none none ["saw", "him!"], by decide⟩

lemma keptTokens_take (ext : Ext) (ts : List String) :
    keptTokens ext ts =
      ts.take (min
        (ts.findIdx fun w => decide (w ∈ ([".", "!", "?", ","] : List String)))
        ((ts.findIdx fun w => startsWithS (tag1 ext w) "NN") + 1)) := by
  induction ts with
  | nil => simp [keptTokens]
  | cons w ws ih =>
    simp only [keptTokens, List.findIdx_cons]
    by_cases hp : w ∈ ([".", "!", "?", ","] : List String)
    · rw [if_pos hp, decide_eq_true hp, Bool.cond_true]
      have hmin : min 0
          ((bif startsWithS (tag1 ext w) "NN" then 0
            else (ws.findIdx fun w => startsWithS (tag1 ext w) "NN") + 1) + 1) = 0 := by
        omega
      rw [hmin, List.take_zero]
    · rw [if_neg hp, decide_eq_false hp, Bool.cond_false]
      by_cases hn : startsWithS (tag1 ext w) "NN" = true
      · rw [if_pos hn, hn, Bool.cond_true]
        have hmin : min
            ((ws.findIdx fun w =>
              decide (w ∈ ([".", "!", "?", ","] : List String))) + 1) (0 + 1) = 1 := by
          omega
        rw [hmin, List.take_succ_cons, List.take_zero]
      · rw [if_neg hn]
        have hnb : startsWithS (tag1 ext w) "NN" = false := by simpa using hn
        rw [hnb, Bool.cond_false]
        have hmin : min
            ((ws.findIdx fun w =>
              decide (w ∈ ([".", "!", "?", ","] : List String))) + 1)
            ((ws.findIdx fun w => startsWithS (tag1 ext w) "NN") + 1 + 1) =
            min
              (ws.findIdx fun w =>
                decide (w ∈ ([".", "!", "?", ","] : List String)))
              ((ws.findIdx fun w => startsWithS (tag1 ext w) "NN") + 1) + 1 := by
          omega
        rw [hmin, List.take_succ_cons, ih]

lemma keptTokens_no_punct (ext : Ext) (ts : List String) :
    (keptTokens ext ts).all
      (fun w => !(decide (w ∈ ([".", "!", "?", ","] : List String)))) = true := by
  induction ts with
  | nil => rfl
  | cons w ws ih =>
    simp only [keptTokens]
    by_cases hp : w ∈ ([".", "!", "?", ","] : List String)
    · rw [if_pos hp]; rfl
    · rw [if_neg hp]
      by_cases hn : startsWithS (tag1 ext w) "NN" = true
      · rw [if_pos hn]
        simp only [List.all_cons, List.all_nil, decide_eq_false hp]
        rfl
      · rw [if_neg hn]
        simp only [List.all_cons, decide_eq_false hp]
        simpa using ih

/-- C8: the Response Simplifier keeps tokens in order: it keeps exactly the
prefix of the token list up to the first `. ! ? ,` token (excluded) or up to
and including the first token whose single-token part-of-speech tag starts
with "NN", whichever comes first, and no terminal-punctuation token is ever
in the kept sequence; the returned string is the kept prefix rejoined,
whitespace-collapsed, and contraction-normalized. -/
theorem c8_simplifier_truncation :
    ∀ (ext : Ext) (r : String),
      simplify_response ext r =
        handle_contractions
          ⟨collapseWsL false (joinSp (keptTokens ext (ext.tok r))).data⟩ ∧
      keptTokens ext (ext.tok r) =
        (ext.tok r).take (min
          ((ext.tok r).findIdx fun w =>
            decide (w ∈ ([".", "!", "?", ","] : List String)))
          (((ext.tok r).findIdx fun w => startsWithS (tag1 ext w) "NN") + 1)) ∧
      (keptTokens ext (ext.tok r)).all
        (fun w => !(decide (w ∈ ([".", "!", "?", ","] : List String)))) = true :=
  fun ext r => ⟨rfl, keptTokens_take ext (ext.tok r), keptTokens_no_punct ext (ext.tok r)⟩

/-- C8 witness: the truncation property at the spec's concrete scenario
(tokens of "I am going to the store, really."): everything up to the first
noun "store" is kept and the comma and trailing words are dropped. -/
theorem c8_simplifier_truncation_witness :
    keptTokens wExt (wExt.tok "I am going to the store , really .") =
      (wExt.tok "I am going to the store , really .").take (min
        ((wExt.tok "I am going to the store , really .").findIdx fun w =>
          decide (w ∈ ([".", "!", "?", ","] : List String)))
        (((wExt.tok "I am going to the store , really .").findIdx fun w =>
          startsWithS (tag1 wExt w) "NN") + 1)) ∧
    keptTokens wExt (wExt.tok "I am going to the store , really .") =
      ["I", "am", "going", "to", "the", "store"] :=
  ⟨(c8_simplifier_truncation wExt "I am going to the store , really .").2.1,
   by decide⟩

lemma group1_none_of_no_star (items : List RItem)
    (h : hasStar items = false) : ∀ s, group1 items s = none := by
  induction items with
  | nil => intro s; rfl
  | cons it rest ih =>
    cases it with
    | star => simp [hasStar] at h
    | lit l =>
      intro s
      have h2 : hasStar rest = false := by simpa [hasStar] using h
      cases s with
      | nil => rfl
      | cons c cs =>
        by_cases hc : ciEq l c = true <;> simp [group1, hc, ih h2]

/-- C6: when the first rule whose pattern matches has no capturing group
(only the `default` rule is such) while its chosen template expects a
substitution, `get_response` returns the fixed apology-and-elaborate
message — the `IndexError` of `match.group(1)` is caught locally and never
escapes. -/
theorem c6_missing_group_apology :
    ∀ (ext : Ext) (pick : List String → String) (input name pattern : String)
      (resps : List String),
      responses.find? (matchesEntry input) = some (pattern, resps) →
      hasStar (parsePat pattern.data) = false →
      hasPlaceholder (pick resps) = true →
      get_response ext pick input name = apology := by
  intro ext pick input name pattern resps hfind hstar hph
  simp [get_response, hfind, group1_none_of_no_star _ hstar]

/-- C6 witness: at the concrete input "default", the walk selects the
`default` rule, whose pattern has no capturing group; with the first-template
choice (which contains a placeholder) the response is the apology. -/
theorem c6_missing_group_apology_witness :
    responses.find? (matchesEntry "default") =
      some ("default", ["Why do you say {0}?", "{0}?"]) ∧
    hasStar (parsePat ("default").data) = false ∧
    hasPlaceholder (wPick ["Why do you say {0}?", "{0}?"]) = true ∧
    get_response wExt wPick "default" "Ada" = apology :=
  ⟨by decide, by decide, by decide,
   c6_missing_group_apology wExt wPick "default" "Ada" "default"
     ["Why do you say {0}?", "{0}?"] (by decide) (by decide) (by decide)⟩

lemma reMatch_all_lits (l : List Char) :
    ∀ s : List Char, reMatch (l.map RItem.lit) s = ciPrefixB l s := by
  induction l with
  | nil => intro s; rfl
  | cons c cs ih =>
    intro s
    cases s with
    | nil => rfl
    | cons d ds => simp [reMatch, ciPrefixB, ih]

/-- C1 counterexample: the `default` rule IS selected by the pattern-matching
walk for the concrete input "default" (its key is tried as a pattern by the
loop and matches), and the response is then the apology message, not a
filled `default` template produced by the fallback pipeline. -/
theorem c1_default_fallback_cex :
    (responses.find? (matchesEntry "default")).map Prod.fst = some "default" ∧
    get_response wExt wPick "default" "Ada" = apology := by
  exact ⟨by decide, by decide⟩

/-- C1 amended: for every input that does not start with "default"
(case-insensitively), the `default` rule is never selected by the
pattern-matching walk; and whenever no pattern matches, the dispatcher runs
the Pronoun/Verb Transformer on the entire utterance, applies the Grammar
Mood Adapter exactly when the utterance starts with "I am" or "I'm"
(case-insensitive), normalizes contractions, simplifies, and substitutes the
result into the chosen `default` template. -/
theorem c1_default_fallback_amended :
    ∀ (ext : Ext) (pick : List String → String) (input name : String),
      ciPrefixB "default".data input.data = false →
      ((responses.find? (matchesEntry input)).map Prod.fst ≠ some "default") ∧
      (responses.find? (matchesEntry input) = none →
        get_response ext pick input name =
          pyFormat (pick defaultTemplates)
            (simplify_response ext (handle_contractions
              (if ciPrefixB "I am".data input.data ||
                  ciPrefixB "I'm".data input.data
               then handle_grammar ext (transform_pronouns input)
               else transform_pronouns input)))) := by
  intro ext pick input name hpre
  constructor
  · intro hmap
    rcases hfind : responses.find? (matchesEntry input) with _ | e
    · rw [hfind] at hmap
      simp at hmap
    · rw [hfind] at hmap
      have he : e.1 = "default" := by simpa using hmap
      have hp := List.find?_some hfind
      unfold matchesEntry at hp
      rw [he] at hp
      rw [show parsePat "default".data = "default".data.map RItem.lit from rfl,
        reMatch_all_lits] at hp
      rw [hp] at hpre
      exact Bool.noConfusion hpre
  · intro hnone
    simp [get_response, hnone]

/-- C1 witness: the amended statement at the concrete input "zzz" (which
starts with neither "default" nor "I am"/"I'm" and matches no pattern). -/
theorem c1_default_fallback_witness :
    ((responses.find? (matchesEntry "zzz")).map Prod.fst ≠ some "default") ∧
    (responses.find? (matchesEntry "zzz") = none →
      get_response wExt wPick "zzz" "Ada" =
        pyFormat (wPick defaultTemplates)
          (simplify_response wExt (handle_contractions
            (if ciPrefixB "I am".data ("zzz").data ||
                ciPrefixB "I'm".data ("zzz").data
             then handle_grammar wExt (transform_pronouns "zzz")
             else transform_pronouns "zzz")))) :=
  c1_default_fallback_amended wExt wPick "zzz" "Ada" (by decide)

lemma findIdx_le_of_get {α : Type} (p : α → Bool) :
    ∀ (l : List α) (i : Nat) (h : i < l.length),
      p (l.get ⟨i, h⟩) = true → l.findIdx p ≤ i := by
  intro l
  induction l with
  | nil => intro i h; exact absurd h (by simp)
  | cons a t ih =>
    intro i h hp
    by_cases ha : p a = true
    · simp [List.findIdx_cons, ha]
    · cases i with
      | zero => exact absurd hp ha
      | succ n =>
        have hb : p a = false := by simpa using ha
        rw [List.findIdx_cons, hb, Bool.cond_false]
        exact Nat.succ_le_succ (ih n (Nat.lt_of_succ_lt_succ h) hp)

lemma find?_eq_getElem?_findIdx {α : Type} (p : α → Bool) (l : List α) :
    l.find? p = l[l.findIdx p]? := by
  induction l with
  | nil => rfl
  | cons a t ih =>
    by_cases ha : p a = true
    · simp [List.find?_cons_of_pos _ ha, List.findIdx_cons, ha]
    · have hb : p a = false := by simpa using ha
      simp [List.find?_cons_of_neg _ ha, List.findIdx_cons, hb, ih]

/-- Shared evaluation of the matched branch of `get_response` for a rule
other than the two first-person rules. -/
lemma get_response_found (ext : Ext) (pick : List String → String)
    (input name pattern : String) (resps : List String) (g : List Char)
    (hfind : responses.find? (matchesEntry input) = some (pattern, resps))
    (hg : group1 (parsePat pattern.data) input.data = some g)
    (hpat : ¬(pattern = "I am (.*)" ∨ pattern = "I'm (.*)")) :
    get_response ext pick input name =
      pyFormat (pick resps)
        (simplify_response ext (handle_contractions (transform_pronouns ⟨g⟩))) := by
  simp [get_response, hfind, hg, hpat]

lemma fmt_q1 (arg : String) :
    pyFormat "Why do you ask that?" arg = "Why do you ask that?" := rfl

lemma fmt_q2 (arg : String) :
    pyFormat "What do you think?" arg = "What do you think?" := rfl

lemma fmt_q3 (arg : String) :
    pyFormat "How would an answer to that help you?" arg =
      "How would an answer to that help you?" := rfl

/-- C5: rule evaluation order equals declaration order and decides the
outcome: the dispatcher always selects the first (least-index) matching
entry of the ordered table, so whenever a rule at index `i` matches, no rule
declared after `i` can answer; the `"(.*)\?"` rule sits at index 18,
immediately before `"(.*) problem(.*)"` at index 19, so an input that ends
in "?" and contains " problem" (e.g. "a problem?") is answered by a
template of the `"(.*)\?"` rule. -/
theorem c5_rule_order :
    (∀ (input : String) (i j : Nat) (hj : j < responses.length)
       (hij : i < j),
      matchesEntry input (responses.get ⟨i, Nat.lt_trans hij hj⟩) = true →
      responses.findIdx (matchesEntry input) ≤ i ∧
      responses.find? (matchesEntry input) =
        responses[responses.findIdx (matchesEntry input)]?) ∧
    (responses.get ⟨18, by decide⟩).1 = "(.*)\\?" ∧
    (responses.get ⟨19, by decide⟩).1 = "(.*) problem(.*)" ∧
    (∀ (ext : Ext) (pick : List String → String) (name : String),
      pick ["Why do you ask that?", "What do you think?",
            "How would an answer to that help you?"] ∈
        (["Why do you ask that?", "What do you think?",
          "How would an answer to that help you?"] : List String) →
      get_response ext pick "a problem?" name ∈
        (["Why do you ask that?", "What do you think?",
          "How would an answer to that help you?"] : List String)) := by
  refine ⟨?_, by decide, by decide, ?_⟩
  · intro input i j hj hij hp
    exact ⟨findIdx_le_of_get _ _ i _ hp, find?_eq_getElem?_findIdx _ _⟩
  · intro ext pick name hp
    have hfind : responses.find? (matchesEntry "a problem?") =
        some ("(.*)\\?",
          ["Why do you ask that?", "What do you think?",
           "How would an answer to that help you?"]) := by decide
    have hg : group1 (parsePat ("(.*)\\?").data) ("a problem?").data =
        some ("a problem").data := by decide
    rw [get_response_found ext pick "a problem?" name _ _ _ hfind hg (by decide)]
    simp only [List.mem_cons, List.not_mem_nil, or_false] at hp
    rcases hp with h | h | h <;> rw [h]
    · rw [fmt_q1]; exact List.mem_cons_self _ _
    · rw [fmt_q2]; exact List.mem_cons_of_mem _ (List.mem_cons_self _ _)
    · rw [fmt_q3]
      exact List.mem_cons_of_mem _ (List.mem_cons_of_mem _ (List.mem_cons_self _ _))

/-- C5 witness: the order property at the concrete indices 18 and 19 with
input "a problem?", which matches both patterns and is answered by the
earlier `"(.*)\?"` rule. -/
theorem c5_rule_order_witness :
    responses.findIdx (matchesEntry "a problem?") ≤ 18 ∧
    get_response wExt wPick "a problem?" "Ada" ∈
      (["Why do you ask that?", "What do you think?",
        "How would an answer to that help you?"] : List String) :=
  ⟨(c5_rule_order.1 "a problem?" 18 19 (by decide) (by decide) (by decide)).1,
   c5_rule_order.2.2.2 wExt wPick "Ada" (by decide)⟩

lemma group1_isSome_of_match :
    ∀ (items : List RItem) (s : List Char),
      reMatch items s = true → hasStar items = true →
      (group1 items s).isSome = true := by
  intro items
  induction items with
  | nil => intro s _ hs; exact absurd hs (by simp [hasStar])
  | cons it rest ih =>
    cases it with
    | lit l =>
      intro s hm hs
      cases s with
      | nil => simp [reMatch] at hm
      | cons c cs =>
        have hs2 : hasStar rest = true := by simpa [hasStar] using hs
        rw [show reMatch (.lit l :: rest) (c :: cs) =
          (ciEq l c && reMatch rest cs) from rfl, Bool.and_eq_true] at hm
        rcases hm with ⟨h1, h2⟩
        simpa [group1, h1] using ih cs h2 hs2
    | star =>
      intro s hm _
      rcases hfk : (List.range (s.length + 1)).reverse.find? (fun k =>
          (s.take k).all (fun c => !(c == '\n')) && reMatch rest (s.drop k))
        with _ | k
      · exfalso
        have hall := List.find?_eq_none.mp hfk
        rw [show reMatch (.star :: rest) s =
          (List.range (s.length + 1)).any (fun k =>
            (s.take k).all (fun c => !(c == '\n')) &&
              reMatch rest (s.drop k)) from rfl] at hm
        rcases List.any_eq_true.mp hm with ⟨k, hk, hpk⟩
        exact absurd hpk (hall k (List.mem_reverse.mpr hk))
      · simp [group1, hfk]

/-- C9: the rule table is a unique-key mapping and `"I want (.*)"` is
declared twice (raw indices 41 and 66): the collapsed table holds exactly
one such entry, at the position of the first declaration (index 41), whose
template list is the second declaration's; the first declaration's extra
template "I see. And what does that tell you?" is unreachable; and whenever
the walk selects the `"I want (.*)"` entry, the response is built from the
second declaration's three templates. -/
theorem c9_duplicate_i_want :
    (rawResponses.countP (fun e => decide (e.1 = "I want (.*)")) = 2) ∧
    (responses.countP (fun e => decide (e.1 = "I want (.*)")) = 1) ∧
    (responses.findIdx (fun e => decide (e.1 = "I want (.*)")) = 41) ∧
    (rawResponses.findIdx (fun e => decide (e.1 = "I want (.*)")) = 41) ∧
    (alook responses "I want (.*)" = some iWantSecond) ∧
    ("I see. And what does that tell you?" ∈
      (rawResponses.get ⟨41, by decide⟩).2) ∧
    (∀ e ∈ responses, e.1 = "I want (.*)" →
      "I see. And what does that tell you?" ∉ e.2) ∧
    (∀ (ext : Ext) (pick : List String → String) (input name : String)
       (resps : List String),
      responses.find? (matchesEntry input) = some ("I want (.*)", resps) →
      resps = iWantSecond ∧
      (group1 (parsePat ("I want (.*)").data) input.data).isSome = true ∧
      (∀ g : List Char,
        group1 (parsePat ("I want (.*)").data) input.data = some g →
        get_response ext pick input name =
          pyFormat (pick iWantSecond)
            (simplify_response ext
              (handle_contractions (transform_pronouns ⟨g⟩))))) := by
  refine ⟨by decide, by decide, by decide, by decide, by decide, by decide,
    by decide, ?_⟩
  intro ext pick input name resps hfind
  have hmem := List.mem_of_find?_eq_some hfind
  have huniq : ∀ e ∈ responses, e.1 = "I want (.*)" → e.2 = iWantSecond := by
    decide
  have hresps : resps = iWantSecond := huniq _ hmem rfl
  have hmatch := List.find?_some hfind
  unfold matchesEntry at hmatch
  refine ⟨hresps, ?_, ?_⟩
  · exact group1_isSome_of_match _ _ hmatch (by decide)
  · intro g hg
    rw [get_response_found ext pick input name _ _ _ hfind hg (by decide),
      hresps]

/-- C9 witness: the behavioral part at the concrete input "I want candy":
the entry found is the collapsed `"I want (.*)"` rule and the response is
built from the second declaration's first template. -/
theorem c9_duplicate_i_want_witness :
    get_response wExt wPick "I want candy" "Ada" =
      pyFormat (wPick iWantSecond)
        (simplify_response wExt
          (handle_contractions (transform_pronouns ⟨("candy").data⟩))) ∧
    get_response wExt wPick "I want candy" "Ada" =
      "What would it mean if you got candy?" := by
  have h := (c9_duplicate_i_want.2.2.2.2.2.2.2 wExt wPick "I want candy" "Ada"
    iWantSecond (by decide)).2.2 ("candy").data (by decide)
  exact ⟨h, h.trans (by decide)⟩

lemma not_VB_of_NN (t : String) (h : startsWithS t "NN" = true) :
    startsWithS t "VB" = false := by
  unfold startsWithS at h ⊢
  rcases hl : t.data with _ | ⟨c, rest⟩
  · rw [hl] at h; exact absurd h (by decide)
  · rw [hl] at h
    rw [show ("NN" : String).data = ['N', 'N'] from rfl] at h
    rw [show ("VB" : String).data = ['V', 'B'] from rfl]
    rw [show (['N', 'N'].isPrefixOf (c :: rest)) =
      (('N' == c) && ['N'].isPrefixOf rest) from rfl] at h
    rw [show (['V', 'B'].isPrefixOf (c :: rest)) =
      (('V' == c) && ['B'].isPrefixOf rest) from rfl]
    rw [Bool.and_eq_true] at h
    rcases h with ⟨h1, _⟩
    have hc : 'N' = c := by simpa using h1
    subst hc
    simp

/-- C7: the Grammar Mood Adapter's output is determined by the
part-of-speech tag of the first token after an initial "I am"/"I 'm"
(case-insensitive, at least two tagged tokens): when the precondition holds
the adapter returns the dispatch of the first remaining tag over the
remaining tokens, where adjective/adverb tags yield "feeling " + remainder,
VBG yields the remainder unchanged, other VB* tags yield "being " +
remainder, NN yields "being a " + remainder, other noun/pronoun/determiner/
cardinal/list/symbol/preposition-like tags yield "being " + remainder, TO
yields "trying " + remainder, conjunction/existential/foreign/interjection/
possessive tags yield "whatever " + remainder + " means", any other tag
yields the remainder unprefixed; and when the precondition is not met the
input is returned unchanged. -/
theorem c7_grammar_mood_dispatch :
    (∀ (ext : Ext) (s t0 t1 : String) (trest : List String)
       (g0 g1 : String) (gs : List String),
      ext.tok s = t0 :: t1 :: trest →
      ext.tagL (t0 :: t1 :: trest) = g0 :: g1 :: gs →
      lowerStr t0 = "i" →
      (lowerStr t1 = "am" ∨ lowerStr t1 = "'m") →
      handle_grammar ext s =
        grammarDispatch (headTagStr (trest.zip gs)) (joinSp trest)) ∧
    (∀ ftag rel : String,
      (ftag ∈ (["JJ", "JJR", "JJS", "RB", "RBR", "RBS"] : List String) →
        grammarDispatch ftag rel = "feeling " ++ rel) ∧
      (startsWithS ftag "VB" = true → ftag = "VBG" →
        grammarDispatch ftag rel = rel) ∧
      (startsWithS ftag "VB" = true → ftag ≠ "VBG" →
        grammarDispatch ftag rel = "being " ++ rel) ∧
      (ftag = "NN" → grammarDispatch ftag rel = "being a " ++ rel) ∧
      ((startsWithS ftag "NN" = true ∨
          ftag ∈ (["PRP", "PRP$", "RP", "IN", "DT", "PDT", "WDT", "CD",
                   "LS", "SYM", "WDT", "WP", "WRB"] : List String)) →
        ftag ≠ "NN" → grammarDispatch ftag rel = "being " ++ rel) ∧
      (ftag = "TO" → grammarDispatch ftag rel = "trying " ++ rel) ∧
      (ftag ∈ (["CC", "EX", "FW", "UH", "POS"] : List String) →
        grammarDispatch ftag rel = "whatever " ++ rel ++ " means") ∧
      (ftag ∉ (["JJ", "JJR", "JJS", "RB", "RBR", "RBS"] : List String) →
        startsWithS ftag "VB" = false →
        startsWithS ftag "NN" = false →
        ftag ∉ (["PRP", "PRP$", "RP", "IN", "DT", "PDT", "WDT", "CD",
                 "LS", "SYM", "WDT", "WP", "WRB"] : List String) →
        ftag ≠ "TO" →
        ftag ∉ (["CC", "EX", "FW", "UH", "POS"] : List String) →
        grammarDispatch ftag rel = rel)) ∧
    (∀ (ext : Ext) (s : String),
      (∀ (t0 t1 : String) (trest : List String),
        ext.tok s = t0 :: t1 :: trest →
        2 ≤ (ext.tagL (t0 :: t1 :: trest)).length →
        ¬(lowerStr t0 = "i" ∧ (lowerStr t1 = "am" ∨ lowerStr t1 = "'m"))) →
      handle_grammar ext s = s) := by
  refine ⟨?_, ?_, ?_⟩
  · intro ext s t0 t1 trest g0 g1 gs htok htag h0 h1
    simp only [handle_grammar, htok, htag, List.zip_cons_cons]
    rw [if_pos ⟨h0, h1⟩]
    simp only [List.drop_succ_cons, List.drop_zero]
  · intro ftag rel
    refine ⟨?_, ?_, ?_, ?_, ?_, ?_, ?_, ?_⟩
    · intro h; fin_cases h <;> rfl
    · intro _ he; subst he; rfl
    · intro hvb hne
      have hA : ftag ∉ (["JJ", "JJR", "JJS", "RB", "RBR", "RBS"] : List String) :=
        fun hm => by fin_cases hm <;> exact absurd hvb (by decide)
      unfold grammarDispatch
      rw [if_neg hA, if_pos hvb, if_neg hne]
    · intro he; subst he; rfl
    · intro hOr hne
      have hA : ftag ∉ (["JJ", "JJR", "JJS", "RB", "RBR", "RBS"] : List String) := by
        rcases hOr with h | h
        · intro hm; fin_cases hm <;> exact absurd h (by decide)
        · fin_cases h <;> decide
      have hVB : ¬(startsWithS ftag "VB" = true) := by
        rcases hOr with h | h
        · intro hv; rw [not_VB_of_NN ftag h] at hv; exact Bool.noConfusion hv
        · fin_cases h <;> decide
      unfold grammarDispatch
      rw [if_neg hA, if_neg hVB, if_pos hOr, if_neg hne]
    · intro he; subst he; rfl
    · intro h; fin_cases h <;> rfl
    · intro h1 h2 h3 h4 h5 h6
      unfold grammarDispatch
      rw [if_neg h1, if_neg (fun hv => by rw [h2] at hv; exact Bool.noConfusion hv),
        if_neg (fun hc => hc.elim
          (fun h => by rw [h3] at h; exact Bool.noConfusion h) h4),
        if_neg (fun hm => h5 (by simpa using hm)), if_neg h6]
  · intro ext s hcond
    rcases htok : ext.tok s with _ | ⟨t0, rest0⟩
    · simp [handle_grammar, htok]
    · rcases rest0 with _ | ⟨t1, trest⟩
      · rcases htag : ext.tagL [t0] with _ | ⟨g0, gs⟩ <;>
          simp [handle_grammar, htok, htag]
      · rcases htag : ext.tagL (t0 :: t1 :: trest) with _ | ⟨g0, rest1⟩
        · simp [handle_grammar, htok, htag]
        · rcases rest1 with _ | ⟨g1, gs⟩
          · simp [handle_grammar, htok, htag]
          · have hlen : 2 ≤ (ext.tagL (t0 :: t1 :: trest)).length := by
              rw [htag]; simp only [List.length_cons]; omega
            have hne := hcond t0 t1 trest htok hlen
            simp only [handle_grammar, htok, htag, List.zip_cons_cons]
            rw [if_neg hne]

/-- C7 witness: the dispatch at the concrete input "i am tired of this"
with a tagger that tags "tired" as JJ: the adapter prepends "feeling". -/
theorem c7_grammar_mood_dispatch_witness :
    handle_grammar wExt "i am tired of this" = "feeling tired of this" := by
  have h1 := c7_grammar_mood_dispatch.1 wExt "i am tired of this" "i" "am"
    ["tired", "of", "this"] "XX" "XX" ["JJ", "XX", "XX"] (by decide) (by decide)
    (by decide) (Or.inl (by decide))
  rw [h1]
  decide

end Eliza
